import Mathlib

/-!
Verification of the glitch-text custom element (src/glitch-text.js).

The component's behavior is embedded shallowly:

* JS number arithmetic (`Math.floor`, multiplication, division) is modelled
  exactly over the rationals; the values the code computes are integers and
  small rationals, and the embedding keeps them exact.
* `Math.random()` draws are supplied by an explicit stream `rand : Nat → ℚ`
  of values, one per call, in the order the source makes the calls.
* `self.crypto.randomUUID()` is supplied as an explicit argument to
  `connectedCallback`.
* The textual rendering of an interpolated JS number inside a template
  literal is abstracted as functions `showNum : ℚ → String` and
  `showInt : ℤ → String`, since JS float formatting is platform printing,
  not arithmetic.
* The host element and the document are explicit state records; methods
  become state-passing functions.
-/

set_option maxRecDepth 100000

namespace GlitchText

/-- Arguments of the CSS clip value `rect(top, right, bottom, left)` in the
positional order the source writes them: the generator emits
`clip: rect(Apx, 9999px, Bpx, 0)`, so `A` is the top offset, `9999` the
right offset, `B` the bottom offset and `0` the left offset. -/
structure ClipRect where
  top : ℤ
  right : ℤ
  bottom : ℤ
  left : ℤ
deriving DecidableEq

/-- One keyframe block emitted by one iteration of the loop in
`generateNoiseAnimation`: a timeline percentage and a clip rectangle. -/
structure KeyframeEntry where
  percent : ℚ
  clip : ClipRect
deriving DecidableEq

/-- Embedding of `createRandomNumber` (src lines 25-27):
`Math.floor(Math.random() * (max - min + 1) + min)`, with the
`Math.random()` draw passed explicitly as `randomValue`. -/
def createRandomNumber (randomValue : ℚ) (min max : ℤ) : ℤ :=
  ⌊randomValue * ((max : ℚ) - (min : ℚ) + 1) + (min : ℚ)⌋

/-- Embedding of the loop of `generateNoiseAnimation` (src lines 39-48), one
list element per loop index `x = 0, 1, ..., steps + 1` (the loop condition is
`x <= steps + 1`, hence `steps + 2` iterations).  Each iteration draws two
random numbers, first for the top offset, then for the bottom offset, so
iteration `x` consumes draws `2*x` and `2*x + 1` of the stream. -/
def generateNoiseEntries (rand : ℕ → ℚ) (steps : ℕ) (min max : ℤ) :
    List KeyframeEntry :=
  (List.range (steps + 2)).map fun (x : ℕ) =>
    { percent := (x : ℚ) * (1 / (steps : ℚ)) * 100
      clip :=
        { top := createRandomNumber (rand (2 * x)) min max
          right := 9999
          bottom := createRandomNumber (rand (2 * x + 1)) min max
          left := 0 } }

/-- Textual form of one keyframe block, exactly as the template literal in
the loop body lays it out (src lines 40-47); `showNum` and `showInt` stand
for the JS number-to-string conversion applied to the interpolated values. -/
def renderKeyframe (showNum : ℚ → String) (showInt : ℤ → String)
    (e : KeyframeEntry) : String :=
  "\n        " ++ showNum e.percent ++ "% \x7b\n          clip: rect("
    ++ showInt e.clip.top ++ "px, 9999px, " ++ showInt e.clip.bottom
    ++ "px, 0);\n        \x7d\n      "

/-- Embedding of `generateNoiseAnimation` (src lines 36-51): starting from
the empty string `clips`, each loop iteration appends its keyframe block. -/
def generateNoiseAnimation (showNum : ℚ → String) (showInt : ℤ → String)
    (rand : ℕ → ℚ) (steps : ℕ) (min max : ℤ) : String :=
  ((generateNoiseEntries rand steps min max).map
      (renderKeyframe showNum showInt)).foldl (fun clips block => clips ++ block) ""

/-- Embedding of the `styles` getter template (src lines 85-137).  The
template text is reproduced byte for byte; the literal is split at every
interpolation point and at a few extra points inside literal runs (which
leaves the concatenated value unchanged).  `uuid` stands for `this.uuid`,
and `na`, `nb` for the two interpolated `this.generateNoiseAnimation()`
results. -/
def stylesText (uuid na nb : String) : String :=
  "\n      "
    ++ "@media (prefers-reduced-motion: no-preference) \x7b"
    ++ "\n        glitch-text[uuid=\""
    ++ uuid
    ++ "\"] \x7b\n          display: inline-block;\n          position: relative;\n          text-wrap: balance;\n        \x7d\n\n        glitch-text[uuid=\""
    ++ uuid
    ++ "\"]::after,\n        glitch-text[uuid=\""
    ++ uuid
    ++ "\"]::before \x7b\n          animation: var(--glitch-anim-name) var(--glitch-anim-delay)\n            var(--glitch-anim-timing, linear) var(--glitch-anim-count, infinite)\n            var(--glitch-anim-dir, alternate-reverse);\n          background-color: var(--glitch-backdrop, inherit);\n          clip: var(--glitch-clip);\n          color: var(--glitch-text, inherit);\n          content: attr(data-text);\n          inset-block-start: 0;\n          inset-inline-start: var(--glitch-position);\n          overflow: hidden;\n          position: absolute;\n          text-shadow: var(--glitch-shadow);\n        \x7d\n\n        "
    ++ "glitch-text[uuid=\""
    ++ uuid
    ++ "\"]::after \x7b\n          --glitch-anim-delay: 2s;\n          --glitch-anim-name: noise-anim-after-"
    ++ uuid
    ++ ";"
    ++ "\n          --glitch-clip: rect(0, 900px, 0, 0);\n          --glitch-position: 0px;\n          --glitch-shadow: -1px 0 var(--glitch-shadow-color);\n          --glitch-shadow-color: red;\n        \x7d\n\n        "
    ++ "glitch-text[uuid=\""
    ++ uuid
    ++ "\"]::before \x7b\n          --glitch-anim-delay: 3s;\n          --glitch-anim-name: noise-anim-before-"
    ++ uuid
    ++ ";"
    ++ "\n          --glitch-clip: rect(0, 900px, 0, 0);\n          --glitch-position: -2px;\n          --glitch-shadow: 1px 0 var(--glitch-shadow-color);\n          --glitch-shadow-color: blue;\n        \x7d\n\n        @keyframes noise-anim-after-"
    ++ uuid
    ++ " \x7b\n          "
    ++ na
    ++ "\n        \x7d\n\n        @keyframes noise-anim-before-"
    ++ uuid
    ++ " \x7b\n          "
    ++ nb
    ++ "\n        \x7d\n      "
    ++ "\x7d\n    "

/-- The `styles` getter as invoked (src lines 128-134): the two keyframes
bodies are two independent invocations of `generateNoiseAnimation` with the
default arguments `steps = 20`, `min = 1`, `max = 100`; `rand1` and `rand2`
are the two independent segments of the random stream they consume. -/
def stylesGetter (showNum : ℚ → String) (showInt : ℤ → String)
    (rand1 rand2 : ℕ → ℚ) (uuid : String) : String :=
  stylesText uuid
    (generateNoiseAnimation showNum showInt rand1 20 1 100)
    (generateNoiseAnimation showNum showInt rand2 20 1 100)

/-- A constructed stylesheet object, modelled by its rule text. -/
structure CSSStyleSheet where
  cssText : String
deriving DecidableEq

/-- Embedding of `new CSSStyleSheet()`: a fresh, empty sheet. -/
def CSSStyleSheet.new : CSSStyleSheet := { cssText := "" }

/-- Embedding of `sheet.replaceSync(text)`: replace the sheet's rules with
the given text. -/
def CSSStyleSheet.replaceSync (sheet : CSSStyleSheet) (text : String) :
    CSSStyleSheet :=
  { sheet with cssText := text }

/-- Document state visible to the component: the adopted-stylesheet list. -/
structure DocumentState where
  adoptedStyleSheets : List CSSStyleSheet
deriving DecidableEq

/-- Embedding of `adoptStyles` (src lines 54-62).  `replaceSyncSupported`
models the capability check `"replaceSync" in CSSStyleSheet.prototype`; when
the capability is absent the method returns early and the document is left
untouched, otherwise a fresh sheet is constructed, loaded with the style
text, and pushed onto the adopted-stylesheet list. -/
def adoptStyles (replaceSyncSupported : Bool) (styleText : String)
    (doc : DocumentState) : DocumentState :=
  if !replaceSyncSupported then
    doc
  else
    let sheet := CSSStyleSheet.new
    let sheet := sheet.replaceSync styleText
    { doc with adoptedStyleSheets := doc.adoptedStyleSheets ++ [sheet] }

/-- Host element state: the two private fields (`#uuid`, `#glitchText`), the
two reflected attributes (`uuid`, `data-text`), and the rendered text
content that `connectedCallback` reads. -/
structure GlitchTextElement where
  uuidField : String
  glitchTextField : String
  attrUuid : Option String
  dataText : Option String
  innerText : String
deriving DecidableEq

/-- Embedding of the `uuid` setter (src lines 68-71): store the value in the
private field and reflect it into the `uuid` attribute. -/
def setUuid (el : GlitchTextElement) (value : String) : GlitchTextElement :=
  { el with uuidField := value, attrUuid := some value }

/-- Embedding of the `glitchText` setter (src lines 77-83): store the value
in the private field and, when `this.dataset.text` differs from the value
(a missing attribute always differs from a string), write the stored value
back to the `data-text` attribute. -/
def setGlitchText (el : GlitchTextElement) (value : String) :
    GlitchTextElement :=
  let el := { el with glitchTextField := value }
  if el.dataText ≠ some value then { el with dataText := some value } else el

/-- Helper for `jsTrim`: drop the leading whitespace characters. -/
def dropLeadingWS : List Char → List Char
  | [] => []
  | c :: cs => if c.isWhitespace then dropLeadingWS cs else c :: cs

/-- Modelling of the platform `String.prototype.trim` called on
`this.innerText` (src line 141): strip whitespace from both ends of the
string (whitespace here is space, tab, CR and LF, which covers the rendered
text this component reads). -/
def jsTrim (s : String) : String :=
  ⟨dropLeadingWS (dropLeadingWS s.data.reverse).reverse⟩

/-- Embedding of the JS expression `a || b` where `a` is a possibly missing
string attribute: a missing value and the empty string are both falsy. -/
def jsOrElse (a : Option String) (b : String) : String :=
  match a with
  | some s => if s = "" then b else s
  | none => b

/-- Embedding of `connectedCallback` (src lines 139-144): assign a freshly
generated identifier (`newUuid` models the `self.crypto.randomUUID()` draw),
then resolve the display text as `this.dataset.text || this.innerText.trim()`.
The final `adoptStyles()` call only touches the document, never the element
state, so it is modelled separately by `adoptStyles`. -/
def connectedCallback (el : GlitchTextElement) (newUuid : String) :
    GlitchTextElement :=
  let el := setUuid el newUuid
  setGlitchText el (jsOrElse el.dataText (jsTrim el.innerText))

/-- Brace-nesting scanner over CSS text: the nesting depth after reading the
characters starting from depth `d`, or `none` if a closing brace ever
appears at depth `0`.  A fragment `s` with `scanDepth s.data 0 = some 0`
keeps every rule it opens closed within itself and never closes a rule
opened outside of it. -/
def scanDepth : List Char → Nat → Option Nat
  | [], d => some d
  | c :: cs, d =>
    if c = '\x7b' then scanDepth cs (d + 1)
    else if c = '\x7d' then
      match d with
      | 0 => none
      | e + 1 => scanDepth cs e
    else scanDepth cs d

/-- A string fragment containing no brace at all, as is the case for the
identifiers interpolated into the stylesheet. -/
def braceFree (s : String) : Prop :=
  ∀ c ∈ s.data, c ≠ '\x7b' ∧ c ≠ '\x7d'

instance braceFreeDecidable (s : String) : Decidable (braceFree s) := by
  unfold braceFree
  infer_instance

/-- Whether the pattern is a leading match of the text. -/
def leadMatch : List Char → List Char → Bool
  | [], _ => true
  | _ :: _, [] => false
  | p :: ps, c :: cs => p == c && leadMatch ps cs

/-- The characters following the first occurrence of the marker in the
text, or `none` when the marker does not occur. -/
def findAfterMarker (marker : List Char) : List Char → Option (List Char)
  | [] => none
  | c :: cs =>
    if leadMatch marker (c :: cs) then some (List.drop marker.length (c :: cs))
    else findAfterMarker marker cs

/-- The characters up to (excluding) the first occurrence of the stop
character. -/
def takeUntil (stop : Char) : List Char → List Char
  | [] => []
  | c :: cs => if c = stop then [] else c :: takeUntil stop cs

/-- The value text a stylesheet declares right after the first occurrence
of the given rule-block marker: the characters following the marker up to
the next semicolon.  Used to read off which animation delay a pseudo
element's rule block declares. -/
def declaredDelay (blockMarker css : String) : Option String :=
  (findAfterMarker blockMarker.data css.data).map fun rest => ⟨takeUntil ';' rest⟩

theorem scanDepth_append (a b : List Char) (d : Nat) :
    scanDepth (a ++ b) d = (scanDepth a d).bind (scanDepth b) := by
  induction a generalizing d with
  | nil => simp [scanDepth]
  | cons c cs ih =>
    by_cases h1 : c = '\x7b'
    · simp [scanDepth, h1, ih]
    · by_cases h2 : c = '\x7d'
      · cases d with
        | zero => simp [scanDepth, h1, h2]
        | succ e => simp [scanDepth, h1, h2, ih]
      · simp [scanDepth, h1, h2, ih]

theorem scanConcat (a b : List Char) (d e f : Nat)
    (ha : scanDepth a d = some e) (hb : scanDepth b e = some f) :
    scanDepth (a ++ b) d = some f := by
  rw [scanDepth_append, ha]
  exact hb

theorem scanDepth_shift (a : List Char) (d e k : Nat)
    (h : scanDepth a d = some e) : scanDepth a (d + k) = some (e + k) := by
  induction a generalizing d e with
  | nil =>
    simp [scanDepth] at h ⊢
    omega
  | cons c cs ih =>
    by_cases h1 : c = '\x7b'
    · simp only [scanDepth, h1, if_pos] at h ⊢
      have := ih (d + 1) e h
      simpa [Nat.add_right_comm] using this
    · by_cases h2 : c = '\x7d'
      · cases d with
        | zero => simp [scanDepth, h1, h2] at h
        | succ m =>
          simp only [scanDepth, h1, h2, if_neg, if_pos] at h ⊢
          have := ih m e h
          simpa [Nat.succ_add] using this
      · simp only [scanDepth, h1, h2, if_neg] at h ⊢
        exact ih d e h

theorem scanDepth_braceFreeList (l : List Char)
    (h : ∀ c ∈ l, c ≠ '\x7b' ∧ c ≠ '\x7d') (d : Nat) :
    scanDepth l d = some d := by
  induction l with
  | nil => rfl
  | cons c cs ih =>
    have hc := h c (List.mem_cons_self _ _)
    simp only [scanDepth, hc.1, hc.2, if_neg, reduceIte]
    exact ih fun x hx => h x (List.mem_cons_of_mem _ hx)

theorem scanDepth_braceFree (s : String) (h : braceFree s) (d : Nat) :
    scanDepth s.data d = some d :=
  scanDepth_braceFreeList s.data h d

theorem scanDepth_foldl (l : List String) (acc : String)
    (h : ∀ s ∈ l, scanDepth s.data 0 = some 0)
    (hacc : scanDepth acc.data 0 = some 0) :
    scanDepth ((l.foldl (fun a b => a ++ b) acc)).data 0 = some 0 := by
  induction l generalizing acc with
  | nil => exact hacc
  | cons s ss ih =>
    simp only [List.foldl_cons]
    apply ih
    · intro t ht
      exact h t (List.mem_cons_of_mem _ ht)
    · rw [String.data_append]
      exact scanConcat _ _ 0 0 0 hacc (h s (List.mem_cons_self _ _))

theorem renderKeyframe_balanced (showNum : ℚ → String) (showInt : ℤ → String)
    (hn : ∀ q, braceFree (showNum q)) (hi : ∀ z, braceFree (showInt z))
    (e : KeyframeEntry) :
    scanDepth (renderKeyframe showNum showInt e).data 0 = some 0 := by
  unfold renderKeyframe
  simp only [String.data_append]
  refine scanConcat _ _ 0 1 0 ?_ (by decide)
  refine scanConcat _ _ 0 1 1 ?_ (scanDepth_braceFree _ (hi _) 1)
  refine scanConcat _ _ 0 1 1 ?_ (by decide)
  refine scanConcat _ _ 0 1 1 ?_ (scanDepth_braceFree _ (hi _) 1)
  refine scanConcat _ _ 0 0 1 ?_ (by decide)
  refine scanConcat _ _ 0 0 0 ?_ (scanDepth_braceFree _ (hn _) 0)
  decide

theorem generateNoiseAnimation_balanced (showNum : ℚ → String)
    (showInt : ℤ → String) (rand : ℕ → ℚ) (steps : ℕ) (min max : ℤ)
    (hn : ∀ q, braceFree (showNum q)) (hi : ∀ z, braceFree (showInt z)) :
    scanDepth (generateNoiseAnimation showNum showInt rand steps min max).data 0
      = some 0 := by
  unfold generateNoiseAnimation
  apply scanDepth_foldl
  · intro s hs
    rw [List.mem_map] at hs
    obtain ⟨e, _, rfl⟩ := hs
    exact renderKeyframe_balanced showNum showInt hn hi e
  · rfl

theorem createRandomNumber_mem (r : ℚ) (min max : ℤ) (hm : min ≤ max)
    (h0 : 0 ≤ r) (h1 : r < 1) :
    min ≤ createRandomNumber r min max ∧ createRandomNumber r min max ≤ max := by
  unfold createRandomNumber
  have hms : (min : ℚ) ≤ (max : ℚ) := by exact_mod_cast hm
  have hc : (0 : ℚ) < (max : ℚ) - (min : ℚ) + 1 := by linarith
  constructor
  · rw [Int.le_floor]
    have := mul_nonneg h0 hc.le
    linarith
  · have hlt : ⌊r * ((max : ℚ) - (min : ℚ) + 1) + (min : ℚ)⌋ < max + 1 := by
      rw [Int.floor_lt]
      have := mul_lt_mul_of_pos_right h1 hc
      push_cast
      linarith
    omega

/-- Claim C1: for every integer `steps > 0` (and any `min <= max`), the
generator produces exactly `steps + 2` keyframe entries, one per loop index
(the loop runs `x = 0, ..., steps + 1`). -/
theorem generateNoiseAnimation_entry_count (rand : ℕ → ℚ) (steps : ℕ)
    (min max : ℤ) (_hs : 0 < steps) (_hm : min ≤ max) :
    (generateNoiseEntries rand steps min max).length = steps + 2 := by
  simp [generateNoiseEntries]

theorem generateNoiseAnimation_entry_count_witness :
    0 < 20 ∧ (1 : ℤ) ≤ 100
      ∧ (generateNoiseEntries (fun _ => 0) 20 1 100).length = 20 + 2 :=
  ⟨by decide, by decide,
    generateNoiseAnimation_entry_count (fun _ => 0) 20 1 100 (by decide) (by decide)⟩

/-- Claim C3: publishing is gated by the capability check.  When the
`replaceSync` capability is present, `adoptStyles` appends exactly one fresh
sheet, loaded with the generated style text, to the document's adopted
stylesheet list; when it is absent, the call is a total no-op that leaves
the document unchanged. -/
theorem adoptStyles_capability_gate (styleText : String) (doc : DocumentState) :
    (adoptStyles true styleText doc).adoptedStyleSheets
        = doc.adoptedStyleSheets ++ [CSSStyleSheet.new.replaceSync styleText]
      ∧ (CSSStyleSheet.new.replaceSync styleText).cssText = styleText
      ∧ adoptStyles false styleText doc = doc :=
  ⟨rfl, rfl, rfl⟩

/-- Claim C7: for `min <= max` and a random draw `r` in `[0, 1)`,
`createRandomNumber r min max` is `floor(r * (max - min + 1) + min)` and is
an integer in `[min, max]` inclusive; consequently every clip-rectangle
top and bottom offset emitted by the generator lies in `[min, max]`. -/
theorem createRandomNumber_range (r : ℚ) (min max : ℤ) (hm : min ≤ max)
    (h0 : 0 ≤ r) (h1 : r < 1) :
    createRandomNumber r min max
        = ⌊r * ((max : ℚ) - (min : ℚ) + 1) + (min : ℚ)⌋
      ∧ (min ≤ createRandomNumber r min max ∧ createRandomNumber r min max ≤ max)
      ∧ ∀ (rand : ℕ → ℚ) (steps : ℕ) (e : KeyframeEntry),
          (∀ n, 0 ≤ rand n ∧ rand n < 1) →
          e ∈ generateNoiseEntries rand steps min max →
          (min ≤ e.clip.top ∧ e.clip.top ≤ max)
            ∧ (min ≤ e.clip.bottom ∧ e.clip.bottom ≤ max) := by
  refine ⟨rfl, createRandomNumber_mem r min max hm h0 h1, ?_⟩
  intro rand steps e hr he
  simp only [generateNoiseEntries, List.mem_map] at he
  obtain ⟨x, _, rfl⟩ := he
  exact ⟨createRandomNumber_mem _ min max hm (hr (2 * x)).1 (hr (2 * x)).2,
    createRandomNumber_mem _ min max hm (hr (2 * x + 1)).1 (hr (2 * x + 1)).2⟩

theorem createRandomNumber_range_witness :
    (1 : ℤ) ≤ 100 ∧ (0 : ℚ) ≤ 1 / 2 ∧ (1 / 2 : ℚ) < 1
      ∧ createRandomNumber (1 / 2) 1 100
          = ⌊(1 / 2 : ℚ) * ((100 : ℚ) - (1 : ℚ) + 1) + (1 : ℚ)⌋
      ∧ 1 ≤ createRandomNumber (1 / 2) 1 100
      ∧ createRandomNumber (1 / 2) 1 100 ≤ 100 :=
  have h := createRandomNumber_range (1 / 2) 1 100 (by decide) (by norm_num) (by norm_num)
  ⟨by decide, by norm_num, by norm_num, h.1, h.2.1.1, h.2.1.2⟩

/-- Claim C4 counterexample: the claim puts the large constant on the left
offset and `0` on the right offset, but the source emits
`clip: rect(..., 9999px, ..., 0)`, whose positional offsets are
top, right, bottom, left — so the right offset of every generated entry is
the constant `9999`, not `0`. -/
theorem clip_rect_left_right_swapped :
    ¬ ∀ e ∈ generateNoiseEntries (fun _ => 0) 20 1 100, e.clip.right = 0 := by
  decide

/-- Claim C4 (amended): every keyframe entry emitted by the generator has
independently drawn uniform-random integer top and bottom offsets in
`[min, max]`, a right offset fixed at the large constant `9999`, and a left
offset fixed at `0`. -/
theorem clip_rect_fields (rand : ℕ → ℚ) (steps : ℕ) (min max : ℤ)
    (e : KeyframeEntry) (hm : min ≤ max)
    (hr : ∀ n, 0 ≤ rand n ∧ rand n < 1)
    (he : e ∈ generateNoiseEntries rand steps min max) :
    (min ≤ e.clip.top ∧ e.clip.top ≤ max)
      ∧ (min ≤ e.clip.bottom ∧ e.clip.bottom ≤ max)
      ∧ e.clip.right = 9999 ∧ e.clip.left = 0 := by
  simp only [generateNoiseEntries, List.mem_map] at he
  obtain ⟨x, _, rfl⟩ := he
  exact ⟨createRandomNumber_mem _ min max hm (hr (2 * x)).1 (hr (2 * x)).2,
    createRandomNumber_mem _ min max hm (hr (2 * x + 1)).1 (hr (2 * x + 1)).2,
    rfl, rfl⟩

theorem clip_rect_fields_witness :
    (⟨0, ⟨1, 9999, 1, 0⟩⟩ : KeyframeEntry)
        ∈ generateNoiseEntries (fun _ => 0) 1 1 100
      ∧ (1 : ℤ) ≤ 100
      ∧ ((1 : ℤ) ≤ (⟨0, ⟨1, 9999, 1, 0⟩⟩ : KeyframeEntry).clip.top
          ∧ (⟨0, ⟨1, 9999, 1, 0⟩⟩ : KeyframeEntry).clip.top ≤ 100)
      ∧ (⟨0, ⟨1, 9999, 1, 0⟩⟩ : KeyframeEntry).clip.right = 9999
      ∧ (⟨0, ⟨1, 9999, 1, 0⟩⟩ : KeyframeEntry).clip.left = 0 := by
  have hmem : (⟨0, ⟨1, 9999, 1, 0⟩⟩ : KeyframeEntry)
      ∈ generateNoiseEntries (fun _ => 0) 1 1 100 := by
    simp only [generateNoiseEntries, List.mem_map]
    refine ⟨0, by decide, ?_⟩
    simp [createRandomNumber]
  have h := clip_rect_fields (fun _ => 0) 1 1 100 ⟨0, ⟨1, 9999, 1, 0⟩⟩
    (by decide) (fun n => by norm_num) hmem
  exact ⟨hmem, by decide, h.1, h.2.2.1, h.2.2.2⟩

/-- Claim C8: for `steps > 0`, the entry at loop index `x` carries the
percentage position `x * (100 / steps)`, and the entries are emitted in
strictly ascending percentage order. -/
theorem keyframe_percentages (rand : ℕ → ℚ) (steps : ℕ) (min max : ℤ)
    (hs : 0 < steps) :
    (∀ (i : ℕ) (h : i < (generateNoiseEntries rand steps min max).length),
        ((generateNoiseEntries rand steps min max).get ⟨i, h⟩).percent
          = (i : ℚ) * (100 / (steps : ℚ)))
      ∧ ∀ (i j : ℕ) (hi : i < (generateNoiseEntries rand steps min max).length)
          (hj : j < (generateNoiseEntries rand steps min max).length),
          i < j →
          ((generateNoiseEntries rand steps min max).get ⟨i, hi⟩).percent
            < ((generateNoiseEntries rand steps min max).get ⟨j, hj⟩).percent := by
  have hs0 : (steps : ℚ) ≠ 0 := Nat.cast_ne_zero.mpr hs.ne'
  have hget : ∀ (i : ℕ) (h : i < (generateNoiseEntries rand steps min max).length),
      ((generateNoiseEntries rand steps min max).get ⟨i, h⟩).percent
        = (i : ℚ) * (100 / (steps : ℚ)) := by
    intro i h
    simp only [generateNoiseEntries, List.get_eq_getElem, List.getElem_map,
      List.getElem_range]
    field_simp
  refine ⟨hget, ?_⟩
  intro i j hi hj hij
  rw [hget i hi, hget j hj]
  have hpos : 0 < 100 / (steps : ℚ) := by
    have : (0 : ℚ) < (steps : ℚ) := by exact_mod_cast hs
    positivity
  have hcast : (i : ℚ) < (j : ℚ) := by exact_mod_cast hij
  exact mul_lt_mul_of_pos_right hcast hpos

theorem keyframe_percentages_witness :
    0 < 20
      ∧ ((generateNoiseEntries (fun _ => 0) 20 1 100).get? 3).map KeyframeEntry.percent
          = some ((3 : ℚ) * (100 / (20 : ℚ))) := by
  refine ⟨by decide, ?_⟩
  have h3 : 3 < (generateNoiseEntries (fun _ => 0) 20 1 100).length := by
    simp [generateNoiseEntries]
  have h := (keyframe_percentages (fun _ => 0) 20 1 100 (by decide)).1 3 h3
  rw [List.get?_eq_get h3]
  simpa using congrArg some h

/-- Claim C6: on attachment, an element carrying the explicit text
attribute "Hello" resolves its display text to "Hello" and mirrors "Hello"
into the data attribute; an element with no text attribute but rendered
content "World" resolves its display text to "World". -/
theorem connectedCallback_resolves_text (el1 el2 : GlitchTextElement)
    (u1 u2 : String)
    (h1 : el1.dataText = some "Hello")
    (h2 : el2.dataText = none) (h3 : el2.innerText = "World") :
    ((connectedCallback el1 u1).glitchTextField = "Hello"
        ∧ (connectedCallback el1 u1).dataText = some "Hello")
      ∧ (connectedCallback el2 u2).glitchTextField = "World" := by
  refine ⟨⟨?_, ?_⟩, ?_⟩
  · simp [connectedCallback, setUuid, setGlitchText, jsOrElse, h1]
  · simp [connectedCallback, setUuid, setGlitchText, jsOrElse, h1]
  · have hw : jsTrim "World" = "World" := by decide
    simp [connectedCallback, setUuid, setGlitchText, jsOrElse, h2, h3, hw]

theorem connectedCallback_resolves_text_witness :
    (⟨"", "", none, some "Hello", ""⟩ : GlitchTextElement).dataText = some "Hello"
      ∧ (⟨"", "", none, none, "World"⟩ : GlitchTextElement).dataText = none
      ∧ (⟨"", "", none, none, "World"⟩ : GlitchTextElement).innerText = "World"
      ∧ ((connectedCallback ⟨"", "", none, some "Hello", ""⟩ "u").glitchTextField
            = "Hello"
          ∧ (connectedCallback ⟨"", "", none, some "Hello", ""⟩ "u").dataText
            = some "Hello")
      ∧ (connectedCallback ⟨"", "", none, none, "World"⟩ "u").glitchTextField
          = "World" :=
  have h := connectedCallback_resolves_text ⟨"", "", none, some "Hello", ""⟩
    ⟨"", "", none, none, "World"⟩ "u" "u" rfl rfl rfl
  ⟨rfl, rfl, rfl, h.1, h.2⟩

/-- Claim C9 counterexample: the identifier is not immutable after the first
attachment.  Re-attaching the same element runs `connectedCallback` again,
which unconditionally assigns a freshly generated identifier, so the field
and its mirrored attribute change whenever the two generated values differ. -/
theorem uuid_reassigned_on_reattach :
    (connectedCallback
        (connectedCallback (⟨"", "", none, none, ""⟩ : GlitchTextElement) "1111")
        "2222").uuidField
      ≠ (connectedCallback (⟨"", "", none, none, ""⟩ : GlitchTextElement)
          "1111").uuidField
    ∧ (connectedCallback
        (connectedCallback (⟨"", "", none, none, ""⟩ : GlitchTextElement) "1111")
        "2222").attrUuid
      ≠ (connectedCallback (⟨"", "", none, none, ""⟩ : GlitchTextElement)
          "1111").attrUuid := by
  constructor <;> decide

/-- Claim C9 (amended): the identifier is assigned on every attachment —
`connectedCallback` sets the field and its mirrored attribute to the newly
generated value, and a re-attachment therefore reassigns them — while the
only other state-changing operation, the display-text setter, leaves the
identifier and its mirrored attribute unchanged. -/
theorem uuid_assignment_behavior (el : GlitchTextElement) (u v : String) :
    (connectedCallback el u).uuidField = u
      ∧ (connectedCallback el u).attrUuid = some u
      ∧ (setGlitchText el v).uuidField = el.uuidField
      ∧ (setGlitchText el v).attrUuid = el.attrUuid := by
  refine ⟨?_, ?_, ?_, ?_⟩ <;>
    · simp only [connectedCallback, setUuid, setGlitchText, jsOrElse]
      split <;> rfl

/-- Claim C10: an empty text attribute is falsy in
`this.dataset.text || this.innerText.trim()`, so it is treated exactly like
an absent attribute: the display text falls back to the rendered text
content, trimmed, and the trimmed value is mirrored back into the data
attribute. -/
theorem empty_attribute_fallback (el : GlitchTextElement) (u : String)
    (h : el.dataText = some "") :
    (connectedCallback el u).glitchTextField = jsTrim el.innerText
      ∧ (connectedCallback el u).dataText = some (jsTrim el.innerText)
      ∧ connectedCallback el u = connectedCallback { el with dataText := none } u := by
  by_cases hv : jsTrim el.innerText = ""
  · simp [connectedCallback, setUuid, setGlitchText, jsOrElse, h, hv]
  · simp [connectedCallback, setUuid, setGlitchText, jsOrElse, h, hv, Ne.symm hv]

theorem empty_attribute_fallback_witness :
    (⟨"", "", none, some "", "  World  "⟩ : GlitchTextElement).dataText = some ""
      ∧ (connectedCallback ⟨"", "", none, some "", "  World  "⟩ "u").glitchTextField
          = jsTrim "  World  "
      ∧ (connectedCallback ⟨"", "", none, some "", "  World  "⟩ "u").dataText
          = some (jsTrim "  World  ")
      ∧ connectedCallback ⟨"", "", none, some "", "  World  "⟩ "u"
          = connectedCallback ⟨"", "", none, none, "  World  "⟩ "u" :=
  have h := empty_attribute_fallback ⟨"", "", none, some "", "  World  "⟩ "u" rfl
  ⟨rfl, h.1, h.2.1, h.2.2⟩

/-- Claim C5 counterexample: the claim pairs the "before" copy with delay
`2s` and the "after" copy with `3s`, but at a concrete instance the
generated stylesheet declares `3s` in the `::before` rule block (src line
120) and `2s` in the `::after` rule block (src line 111) — the opposite
pairing.  The markers below match only the delay-declaring blocks: the
earlier shared `::before` selector (src line 95) is followed by an
`animation:` declaration, not by `--glitch-anim-delay`. -/
theorem before_after_delay_pairing_refuted :
    declaredDelay "::before \x7b\n          --glitch-anim-delay: "
        (stylesGetter (fun _ => "0") (fun _ => "0") (fun _ => 0) (fun _ => 0) "u")
      = some "3s"
    ∧ declaredDelay "::after \x7b\n          --glitch-anim-delay: "
        (stylesGetter (fun _ => "0") (fun _ => "0") (fun _ => 0) (fun _ => 0) "u")
      = some "2s"
    ∧ ("3s" : String) ≠ "2s" := by
  refine ⟨by decide, by decide, by decide⟩

/-- Claim C5 (amended): in the generated stylesheet, the "after"
pseudo-element rule block sets the animation delay `2s` and the "before"
block sets `3s` (respectively), and each block references its own
per-instance animation name derived from the identifier; the two names are
distinct for every identifier. -/
theorem styles_delays_and_names (showNum : ℚ → String) (showInt : ℤ → String)
    (rand1 rand2 : ℕ → ℚ) (uuid : String) :
    ∃ s1 s2 s3 : String,
      stylesGetter showNum showInt rand1 rand2 uuid
        = s1
          ++ ("glitch-text[uuid=\"" ++ uuid
            ++ "\"]::after \x7b\n          --glitch-anim-delay: 2s;\n          --glitch-anim-name: noise-anim-after-"
            ++ uuid ++ ";")
          ++ s2
          ++ ("glitch-text[uuid=\"" ++ uuid
            ++ "\"]::before \x7b\n          --glitch-anim-delay: 3s;\n          --glitch-anim-name: noise-anim-before-"
            ++ uuid ++ ";")
          ++ s3
      ∧ ("noise-anim-after-" ++ uuid) ≠ ("noise-anim-before-" ++ uuid) := by
  refine ⟨"\n      " ++ "@media (prefers-reduced-motion: no-preference) \x7b"
      ++ "\n        glitch-text[uuid=\"" ++ uuid
      ++ "\"] \x7b\n          display: inline-block;\n          position: relative;\n          text-wrap: balance;\n        \x7d\n\n        glitch-text[uuid=\""
      ++ uuid
      ++ "\"]::after,\n        glitch-text[uuid=\"" ++ uuid
      ++ "\"]::before \x7b\n          animation: var(--glitch-anim-name) var(--glitch-anim-delay)\n            var(--glitch-anim-timing, linear) var(--glitch-anim-count, infinite)\n            var(--glitch-anim-dir, alternate-reverse);\n          background-color: var(--glitch-backdrop, inherit);\n          clip: var(--glitch-clip);\n          color: var(--glitch-text, inherit);\n          content: attr(data-text);\n          inset-block-start: 0;\n          inset-inline-start: var(--glitch-position);\n          overflow: hidden;\n          position: absolute;\n          text-shadow: var(--glitch-shadow);\n        \x7d\n\n        ",
    "\n          --glitch-clip: rect(0, 900px, 0, 0);\n          --glitch-position: 0px;\n          --glitch-shadow: -1px 0 var(--glitch-shadow-color);\n          --glitch-shadow-color: red;\n        \x7d\n\n        ",
    "\n          --glitch-clip: rect(0, 900px, 0, 0);\n          --glitch-position: -2px;\n          --glitch-shadow: 1px 0 var(--glitch-shadow-color);\n          --glitch-shadow-color: blue;\n        \x7d\n\n        @keyframes noise-anim-after-"
      ++ uuid
      ++ " \x7b\n          " ++ generateNoiseAnimation showNum showInt rand1 20 1 100
      ++ "\n        \x7d\n\n        @keyframes noise-anim-before-" ++ uuid
      ++ " \x7b\n          " ++ generateNoiseAnimation showNum showInt rand2 20 1 100
      ++ "\n        \x7d\n      "
      ++ "\x7d\n    ", ?_, ?_⟩
  · simp only [stylesGetter, stylesText, String.append_assoc]
  · intro hEq
    have hd : ("noise-anim-after-" : String).data ++ uuid.data
        = ("noise-anim-before-" : String).data ++ uuid.data := by
      simpa [String.data_append] using congrArg String.data hEq
    have hl := congrArg List.length hd
    simp only [List.length_append] at hl
    have e1 : ("noise-anim-after-" : String).data.length = 17 := rfl
    have e2 : ("noise-anim-before-" : String).data.length = 18 := rfl
    rw [e1, e2] at hl
    omega

/-- Claim C2: for every identifier, the entire stylesheet text produced by
the styles getter consists of a single
`@media (prefers-reduced-motion: no-preference)` block (plus surrounding
whitespace): every rule the component generates sits at positive brace
depth inside that media condition, so no rule applies when the user signals
a reduced-motion preference. -/
theorem styles_media_guard (showNum : ℚ → String) (showInt : ℤ → String)
    (rand1 rand2 : ℕ → ℚ) (uuid : String)
    (hu : braceFree uuid)
    (hn : ∀ q, braceFree (showNum q))
    (hi : ∀ z, braceFree (showInt z)) :
    ∃ body : String,
      stylesGetter showNum showInt rand1 rand2 uuid
        = "\n      " ++ "@media (prefers-reduced-motion: no-preference) \x7b"
            ++ body ++ "\x7d\n    "
      ∧ scanDepth body.data 0 = some 0 := by
  have hna : scanDepth (generateNoiseAnimation showNum showInt rand1 20 1 100).data 0
      = some 0 := generateNoiseAnimation_balanced showNum showInt rand1 20 1 100 hn hi
  have hnb : scanDepth (generateNoiseAnimation showNum showInt rand2 20 1 100).data 0
      = some 0 := generateNoiseAnimation_balanced showNum showInt rand2 20 1 100 hn hi
  have hna1 : scanDepth (generateNoiseAnimation showNum showInt rand1 20 1 100).data 1
      = some 1 := scanDepth_shift _ 0 0 1 hna
  have hnb1 : scanDepth (generateNoiseAnimation showNum showInt rand2 20 1 100).data 1
      = some 1 := scanDepth_shift _ 0 0 1 hnb
  have hu0 : ∀ d, scanDepth uuid.data d = some d := fun d => scanDepth_braceFree uuid hu d
  refine ⟨"\n        glitch-text[uuid=\"" ++ uuid
      ++ "\"] \x7b\n          display: inline-block;\n          position: relative;\n          text-wrap: balance;\n        \x7d\n\n        glitch-text[uuid=\""
      ++ uuid
      ++ "\"]::after,\n        glitch-text[uuid=\"" ++ uuid
      ++ "\"]::before \x7b\n          animation: var(--glitch-anim-name) var(--glitch-anim-delay)\n            var(--glitch-anim-timing, linear) var(--glitch-anim-count, infinite)\n            var(--glitch-anim-dir, alternate-reverse);\n          background-color: var(--glitch-backdrop, inherit);\n          clip: var(--glitch-clip);\n          color: var(--glitch-text, inherit);\n          content: attr(data-text);\n          inset-block-start: 0;\n          inset-inline-start: var(--glitch-position);\n          overflow: hidden;\n          position: absolute;\n          text-shadow: var(--glitch-shadow);\n        \x7d\n\n        "
      ++ "glitch-text[uuid=\"" ++ uuid
      ++ "\"]::after \x7b\n          --glitch-anim-delay: 2s;\n          --glitch-anim-name: noise-anim-after-"
      ++ uuid ++ ";"
      ++ "\n          --glitch-clip: rect(0, 900px, 0, 0);\n          --glitch-position: 0px;\n          --glitch-shadow: -1px 0 var(--glitch-shadow-color);\n          --glitch-shadow-color: red;\n        \x7d\n\n        "
      ++ "glitch-text[uuid=\"" ++ uuid
      ++ "\"]::before \x7b\n          --glitch-anim-delay: 3s;\n          --glitch-anim-name: noise-anim-before-"
      ++ uuid ++ ";"
      ++ "\n          --glitch-clip: rect(0, 900px, 0, 0);\n          --glitch-position: -2px;\n          --glitch-shadow: 1px 0 var(--glitch-shadow-color);\n          --glitch-shadow-color: blue;\n        \x7d\n\n        @keyframes noise-anim-after-"
      ++ uuid
      ++ " \x7b\n          " ++ generateNoiseAnimation showNum showInt rand1 20 1 100
      ++ "\n        \x7d\n\n        @keyframes noise-anim-before-" ++ uuid
      ++ " \x7b\n          " ++ generateNoiseAnimation showNum showInt rand2 20 1 100
      ++ "\n        \x7d\n      ", ?_, ?_⟩
  · simp only [stylesGetter, stylesText, String.append_assoc]
  · simp only [String.data_append]
    refine scanConcat _ _ 0 1 0 ?_ (by decide)
    refine scanConcat _ _ 0 1 1 ?_ hnb1
    refine scanConcat _ _ 0 0 1 ?_ (by decide)
    refine scanConcat _ _ 0 0 0 ?_ (hu0 0)
    refine scanConcat _ _ 0 1 0 ?_ (by decide)
    refine scanConcat _ _ 0 1 1 ?_ hna1
    refine scanConcat _ _ 0 0 1 ?_ (by decide)
    refine scanConcat _ _ 0 0 0 ?_ (hu0 0)
    refine scanConcat _ _ 0 1 0 ?_ (by decide)
    refine scanConcat _ _ 0 1 1 ?_ (by decide)
    refine scanConcat _ _ 0 1 1 ?_ (hu0 1)
    refine scanConcat _ _ 0 0 1 ?_ (by decide)
    refine scanConcat _ _ 0 0 0 ?_ (hu0 0)
    refine scanConcat _ _ 0 0 0 ?_ (by decide)
    refine scanConcat _ _ 0 1 0 ?_ (by decide)
    refine scanConcat _ _ 0 1 1 ?_ (by decide)
    refine scanConcat _ _ 0 1 1 ?_ (hu0 1)
    refine scanConcat _ _ 0 0 1 ?_ (by decide)
    refine scanConcat _ _ 0 0 0 ?_ (hu0 0)
    refine scanConcat _ _ 0 0 0 ?_ (by decide)
    refine scanConcat _ _ 0 0 0 ?_ (by decide)
    refine scanConcat _ _ 0 0 0 ?_ (hu0 0)
    refine scanConcat _ _ 0 0 0 ?_ (by decide)
    refine scanConcat _ _ 0 0 0 ?_ (hu0 0)
    refine scanConcat _ _ 0 0 0 ?_ (by decide)
    refine scanConcat _ _ 0 0 0 ?_ (hu0 0)
    decide

theorem styles_media_guard_witness :
    braceFree "0a1b2c3d"
      ∧ ∃ body : String,
          stylesGetter (fun _ => "0") (fun _ => "0") (fun _ => 0) (fun _ => 0)
              "0a1b2c3d"
            = "\n      " ++ "@media (prefers-reduced-motion: no-preference) \x7b"
                ++ body ++ "\x7d\n    "
          ∧ scanDepth body.data 0 = some 0 :=
  ⟨by decide,
    styles_media_guard (fun _ => "0") (fun _ => "0") (fun _ => 0) (fun _ => 0)
      "0a1b2c3d" (by decide)
      (fun _ => show braceFree "0" by decide)
      (fun _ => show braceFree "0" by decide)⟩

end GlitchText
